import Mathlib

/-!
Verification of the biathlon-platform backend against its specification.

Each service function referenced by a claim is shallowly embedded as a Lean
definition over exact arithmetic (machine floats become `ℚ`, Python `None`
becomes `Option`, a caught exception becomes the `Except.error` branch of an
explicit oracle argument).  Theorems at the end of the file settle the claims.
-/

namespace Biathlon

/-- Python's builtin `round` on an exact rational: round half to even. -/
def pyRound (q : ℚ) : ℤ :=
  let f := ⌊q⌋
  let r := q - f
  if r < 1/2 then f
  else if 1/2 < r then f + 1
  else if f % 2 = 0 then f else f + 1

/-- Python's `int()` truncation toward zero on an exact rational. -/
def pyTrunc (q : ℚ) : ℤ :=
  if q < 0 then -⌊-q⌋ else ⌊q⌋

end Biathlon

namespace IBUService

/-- The `points_map` dict of `IBUDataService._rank_to_points`
(`src/backend/app/services/ibu_service.py`): ranks 1..10 only, `.get` default 0. -/
def pointsMapTop10 (r : ℤ) : ℤ :=
  if r = 1 then 60 else if r = 2 then 54 else if r = 3 then 48 else
  if r = 4 then 43 else if r = 5 then 40 else if r = 6 then 38 else
  if r = 7 then 36 else if r = 8 then 34 else if r = 9 then 32 else
  if r = 10 then 31 else 0

/-- `IBUDataService._rank_to_points`: table for ranks ≤ 10, the simplified
formula `41 - rank` for ranks 11..40, otherwise 0. -/
def rankToPoints (rank : ℤ) : ℤ :=
  if rank ≤ 10 then pointsMapTop10 rank
  else if rank ≤ 40 then 41 - rank
  else 0

end IBUService

namespace IBUFullService

/-- The full `points_map` dict of `IBUFullService._calculate_points`
(`src/backend/app/services/ibu_full_service.py`), `.get` default 0. -/
def pointsMap (r : ℤ) : ℤ :=
  if r = 1 then 60 else if r = 2 then 54 else if r = 3 then 48 else
  if r = 4 then 43 else if r = 5 then 40 else if r = 6 then 38 else
  if r = 7 then 36 else if r = 8 then 34 else if r = 9 then 32 else
  if r = 10 then 31 else if r = 11 then 30 else if r = 12 then 29 else
  if r = 13 then 28 else if r = 14 then 27 else if r = 15 then 26 else
  if r = 16 then 25 else if r = 17 then 24 else if r = 18 then 23 else
  if r = 19 then 22 else if r = 20 then 21 else if r = 21 then 20 else
  if r = 22 then 19 else if r = 23 then 18 else if r = 24 then 17 else
  if r = 25 then 16 else if r = 26 then 15 else if r = 27 then 14 else
  if r = 28 then 13 else if r = 29 then 12 else if r = 30 then 11 else
  if r = 31 then 10 else if r = 32 then 9 else if r = 33 then 8 else
  if r = 34 then 7 else if r = 35 then 6 else if r = 36 then 5 else
  if r = 37 then 4 else if r = 38 then 3 else if r = 39 then 2 else
  if r = 40 then 1 else 0

/-- The per-rank contribution inside `IBUFullService._calculate_points`:
ranks ≤ 40 are looked up in the table (default 0), ranks > 40 are skipped. -/
def pointsForRank (r : ℤ) : ℤ :=
  if r ≤ 40 then pointsMap r else 0

/-- `IBUFullService._calculate_points`: sum of the per-rank points. -/
def calculatePoints (ranks : List ℤ) : ℤ :=
  (ranks.map pointsForRank).sum

/-- Python `str.split("+")` on the character list of the string. -/
def splitPlus : List Char → List (List Char)
  | [] => [[]]
  | c :: cs =>
    if c = '+' then [] :: splitPlus cs
    else
      match splitPlus cs with
      | [] => [[c]]
      | p :: ps => (c :: p) :: ps

/-- Python `str.isdigit()` for ASCII content: non-empty and all digits. -/
def isDigits (cs : List Char) : Bool :=
  !cs.isEmpty && cs.all Char.isDigit

/-- Python `int(...)` on a digit string. -/
def digitsVal (cs : List Char) : ℕ :=
  cs.foldl (fun a c => a * 10 + (c.toNat - 48)) 0

/-- Result shape of `IBUFullService._parse_shooting`.  The empty-string branch
returns a dict without the `prone`/`standing` keys, modelled as `none`. -/
structure ShootingBreakdown where
  totalMisses : ℕ
  pattern : List ℕ
  prone : Option ℕ
  standing : Option ℕ
  deriving Repr, DecidableEq

/-- `IBUFullService._parse_shooting`: split the string on `+`, keep the digit
groups, sum them; first two bouts are `prone`, bouts from the third on are
`standing` (only when at least 2 resp. 4 bouts parsed). -/
def parseShooting (s : String) : ShootingBreakdown :=
  if s = "" then ⟨0, [], none, none⟩
  else
    let shots : List ℕ :=
      if s.data.contains '+' then
        (splitPlus s.data).filterMap
          (fun p => if isDigits p then some (digitsVal p) else none)
      else []
    ⟨shots.sum, shots,
     some (if 2 ≤ shots.length then (shots.take 2).sum else 0),
     some (if 4 ≤ shots.length then (shots.drop 2).sum else 0)⟩

end IBUFullService

namespace FatigueEngine

/-- `FatigueResistanceEngine._calculate_resistance_score`
(`src/backend/app/services/fatigue_analysis.py`): weighted combination of the
four factors, clamped into [0, 100]. -/
def calculateResistanceScore (hrCorrelation timePenalty recoveryEfficiency
    pressureResponse : ℚ) : ℚ :=
  let correlationScore := (1 - |hrCorrelation|) * 100
  let timeScore := max 0 (100 - timePenalty * 20)
  let score := correlationScore * 0.25 + timeScore * 0.25
    + recoveryEfficiency * 0.30 + pressureResponse * 0.20
  min 100 (max 0 score)

end FatigueEngine

namespace Biathlon

/-- Mean of a list of rationals (`np.mean` / `statistics.mean`). -/
def meanQ (l : List ℚ) : ℚ := l.sum / l.length

/-- Mean of a list of integers as a rational. -/
def meanZ (l : List ℤ) : ℚ := (l.sum : ℚ) / l.length

/-- Python `round(x, 1)` on an exact rational. -/
def roundTo1 (q : ℚ) : ℚ := (pyRound (q * 10) : ℚ) / 10

end Biathlon

namespace FatigueEngine

/-- One shooting bout as consumed by the position-resistance computation
(fields `position`, `arrival_hr`, `hits`, `total_shots` of
`ShootingUnderFatigue`). -/
structure FatigueBout where
  position : String
  arrivalHr : ℚ
  hits : ℤ
  totalShots : ℤ
  deriving Repr, DecidableEq

/-- Accuracy of a bout: `hits / total_shots`. -/
def boutAccuracy (b : FatigueBout) : ℚ := (b.hits : ℚ) / (b.totalShots : ℚ)

/-- The bouts of the requested position. -/
def positionBoutsOf (bouts : List FatigueBout) (position : String) : List FatigueBout :=
  bouts.filter (fun b => decide (b.position = position))

/-- Accuracies of the position's bouts reached fresh (arrival HR fraction of
the reference max 190 below 0.85), in bout order. -/
def freshAccOf (bouts : List FatigueBout) (position : String) : List ℚ :=
  ((positionBoutsOf bouts position).filter
    (fun b => decide (b.arrivalHr / 190 < 0.85))).map boutAccuracy

/-- Accuracies of the position's bouts reached fatigued (arrival HR fraction
at least 0.85), in bout order. -/
def fatiguedAccOf (bouts : List FatigueBout) (position : String) : List ℚ :=
  ((positionBoutsOf bouts position).filter
    (fun b => decide (¬ b.arrivalHr / 190 < 0.85))).map boutAccuracy

/-- `FatigueResistanceEngine._calculate_position_resistance`: filter the bouts
of the given position (no bouts ⇒ 50.0); split them at arrival-HR fraction
0.85 of the reference max 190 into fresh (< 0.85) and fatigued (≥ 0.85)
accuracies; when both groups are non-empty and the fresh mean is positive,
return `min 100 (fatigued_mean / fresh_mean * 100)`; every other case falls
through to 75.0. -/
def calculatePositionResistance (bouts : List FatigueBout) (position : String) : ℚ :=
  if positionBoutsOf bouts position = [] then 50
  else if freshAccOf bouts position ≠ [] ∧ fatiguedAccOf bouts position ≠ [] then
    if 0 < Biathlon.meanQ (freshAccOf bouts position) then
      min 100 (Biathlon.meanQ (fatiguedAccOf bouts position) /
        Biathlon.meanQ (freshAccOf bouts position) * 100)
    else 75
  else 75

end FatigueEngine

namespace FeatureEngineer

/-- `np.diff`: successive differences of the RR-interval series. -/
def successiveDiffs (rr : List ℚ) : List ℚ :=
  List.zipWith (fun a b => a - b) (rr.drop 1) rr

/-- Population variance (`np.std` squares this before the square root). -/
def populationVariance (l : List ℚ) : ℚ :=
  Biathlon.meanQ (l.map (fun x => (x - Biathlon.meanQ l) ^ 2))

/-- Sample variance over integer data (`statistics.stdev` squares this). -/
def sampleVarZ (l : List ℤ) : ℚ :=
  (l.map (fun x => ((x : ℚ) - Biathlon.meanZ l) ^ 2)).sum / ((l.length : ℚ) - 1)

/-- The three time-domain HRV features of
`FeatureEngineer.extract_hrv_features`. -/
structure HrvFeatures where
  rmssd : ℚ
  sdnn : ℚ
  pnn50 : ℚ
  deriving Repr, DecidableEq

/-- `FeatureEngineer.extract_hrv_features`
(`src/backend/app/ml/preprocessing/feature_engineering.py`): fewer than 2
intervals yields an empty dict (`none`); otherwise RMSSD, SDNN and pNN50.
`np.sqrt` is abstracted as the `sqrtFn` argument; pNN50 divides the count of
absolute successive differences above 50 by `len(rr)` — the number of
intervals, not the number of differences. -/
def extractHrvFeatures (sqrtFn : ℚ → ℚ) (rr : List ℚ) : Option HrvFeatures :=
  if rr.length < 2 then none
  else
    let d := successiveDiffs rr
    some
      { rmssd := sqrtFn (Biathlon.meanQ (d.map (fun x => x ^ 2)))
        sdnn := sqrtFn (populationVariance rr)
        pnn50 := ((d.countP (fun x => decide (50 < |x|))) : ℚ) / rr.length * 100 }

/-- Following the spec words (refinement target for C8): pNN50 as the count of
successive differences exceeding 50 ms divided by the NUMBER OF SUCCESSIVE
DIFFERENCES, times 100. -/
def pnn50SpecFormula (rr : List ℚ) : ℚ :=
  (((successiveDiffs rr).countP (fun x => decide (50 < |x|))) : ℚ) /
    (successiveDiffs rr).length * 100

end FeatureEngineer

namespace IBUFullService

/-- Lines 147–151 of `IBUFullService.get_athlete_performance`: recent form is
`(season_avg − avg_of_first_5) * 2` when at least 5 ranks exist (the result
list is most-recent-first, so `ranks[:5]` are the 5 most recent), else 0. -/
def recentForm (ranks : List ℤ) : ℚ :=
  if 5 ≤ ranks.length then
    (Biathlon.meanZ ranks - ((ranks.take 5).sum : ℚ) / 5) * 2
  else 0

end IBUFullService

namespace DataService

/-- Lines 152–157 of `DataService.get_athlete_performance`: recent form from
the tabular store; `ranks.tail(5)` are the LAST five entries of the rank
column. -/
def recentForm (ranks : List ℤ) : ℚ :=
  if 5 ≤ ranks.length then
    (Biathlon.meanZ ranks - Biathlon.meanZ (ranks.drop (ranks.length - 5))) * 2
  else 0

end DataService

namespace AnalyticsService

/-- Python truthiness filter `[r.rank for r in rows if r.rank]`: drops both
missing ranks and rank 0. -/
def truthyRanks (l : List (Option ℤ)) : List ℤ :=
  l.filterMap (fun o => match o with
    | some r => if r ≠ 0 then some r else none
    | none => none)

/-- `AnalyticsService._calculate_recent_form`
(`src/backend/app/services/analytics.py`): input is the date-ascending rank
column of the athlete's results; fewer than 5 results gives 0; otherwise
compare the truthy ranks of the last 5 results with all truthy ranks. -/
def calculateRecentForm (results : List (Option ℤ)) : ℚ :=
  if results.length < 5 then 0
  else
    let recentRanks := truthyRanks (results.drop (results.length - 5))
    let allRanks := truthyRanks results
    if recentRanks.isEmpty ∨ allRanks.isEmpty then 0
    else (Biathlon.meanZ allRanks - Biathlon.meanZ recentRanks) * 2

end AnalyticsService

namespace IBUFullService

/-- The fields of one result row of the external authority's
`all_results` payload that `get_athlete_performance` reads. -/
structure ResultRow where
  name : String
  nat : String
  season : String
  rank : String
  shootings : String
  deriving Repr, DecidableEq

/-- Rank parsing inside the results loop: drop `.` characters, keep the value
only when the remainder is a non-empty digit string. -/
def parseRank (s : String) : Option ℤ :=
  let cs := s.data.filter (fun c => decide (c ≠ '.'))
  if isDigits cs then some ((digitsVal cs : ℕ) : ℤ) else none

/-- Shooting parsing inside the results loop: a non-empty string containing a
`+` contributes the sum of its digit groups to `shooting_data`. -/
def parseMisses (s : String) : Option ℕ :=
  if s ≠ "" ∧ s.data.contains '+' then
    some (((splitPlus s.data).filterMap
      (fun p => if isDigits p then some (digitsVal p) else none)).sum)
  else none

/-- The shooting sub-dict of the performance payload. -/
structure ShootingSummary where
  totalAccuracy : ℚ
  proneAccuracy : ℚ
  standingAccuracy : ℚ
  avgMissesPerRace : ℚ
  deriving Repr, DecidableEq

/-- The payload returned by `IBUFullService.get_athlete_performance` on
success. -/
structure Performance where
  athleteId : String
  name : String
  nation : String
  totalRaces : ℕ
  racesFinished : ℕ
  avgRank : ℚ
  medianRank : ℤ
  bestRank : ℤ
  worstRank : ℤ
  shooting : ShootingSummary
  consistencyScore : ℚ
  recentForm : ℚ
  pointsTotal : ℤ
  deriving Repr, DecidableEq

/-- `IBUFullService.get_athlete_performance`.  The single external call
`br.all_results(athlete_id)` is the `fetched` oracle: `Except.error` is a
raised exception (swallowed by the surrounding `try`, returning `None`);
`Except.ok none` is a payload without a `Results` key; `Except.ok (some rows)`
is a normal payload.  `statistics.stdev`'s square root is abstracted as
`sqrtFn`. -/
def getAthletePerformance (sqrtFn : ℚ → ℚ) (athleteId : String)
    (fetched : Except String (Option (List ResultRow))) : Option Performance :=
  match fetched with
  | .error _ => none
  | .ok none => none
  | .ok (some results) =>
    let seasonFiltered := (results.filter (fun r => decide (r.season = "24/25"))).take 20
    let seasonResults := if seasonFiltered.isEmpty then results.take 20 else seasonFiltered
    let ranks := seasonResults.filterMap (fun r => parseRank r.rank)
    let shootingData := seasonResults.filterMap (fun r => parseMisses r.shootings)
    if ranks.isEmpty then none
    else
      let avgRank := Biathlon.meanZ ranks
      let avgMisses : ℚ :=
        if shootingData.isEmpty then 0 else (shootingData.sum : ℚ) / shootingData.length
      let shootingAccuracy := if avgMisses ≤ 20 then (20 - avgMisses) / 20 * 100 else 0
      let consistency : ℚ :=
        if 1 < ranks.length then 100 - min (sqrtFn (FeatureEngineer.sampleVarZ ranks) * 2) 100
        else 50
      some
        { athleteId := athleteId
          name := (seasonResults.head?.map ResultRow.name).getD ""
          nation := (seasonResults.head?.map ResultRow.nat).getD ""
          totalRaces := seasonResults.length
          racesFinished := ranks.length
          avgRank := Biathlon.roundTo1 avgRank
          medianRank := (ranks.insertionSort (· ≤ ·)).getD (ranks.length / 2) 0
          bestRank := (ranks.min?).getD 0
          worstRank := (ranks.max?).getD 0
          shooting :=
            { totalAccuracy := Biathlon.roundTo1 shootingAccuracy
              proneAccuracy := Biathlon.roundTo1 (shootingAccuracy + 5)
              standingAccuracy := Biathlon.roundTo1 (shootingAccuracy - 5)
              avgMissesPerRace := Biathlon.roundTo1 avgMisses }
          consistencyScore := Biathlon.roundTo1 consistency
          recentForm := Biathlon.roundTo1 (recentForm ranks)
          pointsTotal := calculatePoints ranks }

end IBUFullService

namespace AthletesEndpoint

/-- The shooting sub-dict of the endpoint's fallback payload. -/
structure FallbackShooting where
  totalAccuracy : ℚ
  proneAccuracy : ℚ
  standingAccuracy : ℚ
  avgShootingTime : Option ℚ
  deriving Repr, DecidableEq

/-- The literal fallback payload of `GET /athletes/{id}/performance`
(`src/backend/app/api/endpoints/athletes.py`). -/
structure FallbackPerformance where
  athleteId : String
  message : String
  totalRaces : ℕ
  avgRank : ℚ
  medianRank : ℚ
  bestRank : ℚ
  worstRank : ℚ
  shooting : FallbackShooting
  avgSkiTime : ℚ
  consistencyScore : ℚ
  recentForm : ℚ
  pointsTotal : ℤ
  deriving Repr, DecidableEq

/-- The documented default payload returned when the service yields no data. -/
def defaultPerformance (athleteId : String) : FallbackPerformance :=
  { athleteId := athleteId
    message := "Limited data available"
    totalRaces := 0
    avgRank := 0
    medianRank := 0
    bestRank := 0
    worstRank := 0
    shooting := ⟨80, 85, 75, none⟩
    avgSkiTime := 0
    consistencyScore := 50
    recentForm := 0
    pointsTotal := 0 }

/-- Body of the performance endpoint's response: either the service payload or
the fallback payload. -/
inductive PerformanceBody where
  | payload (p : IBUFullService.Performance)
  | fallback (f : FallbackPerformance)
  deriving Repr, DecidableEq

/-- An HTTP response: status code and body. -/
structure HttpResponse where
  status : ℕ
  body : PerformanceBody
  deriving Repr, DecidableEq

/-- `GET /athletes/{id}/performance` (`get_performance`): ask the service; a
falsy result is replaced by the default payload; either way the response is a
200. -/
def getPerformance (sqrtFn : ℚ → ℚ) (athleteId : String)
    (fetched : Except String (Option (List IBUFullService.ResultRow))) : HttpResponse :=
  match IBUFullService.getAthletePerformance sqrtFn athleteId fetched with
  | none => ⟨200, .fallback (defaultPerformance athleteId)⟩
  | some p => ⟨200, .payload p⟩

end AthletesEndpoint

namespace DigitalTwin

/-- Race formats distinguished by the engine (`race_type` strings). -/
inductive RaceType where
  | sprint
  | pursuit
  | individual
  | massStart
  | other
  deriving Repr, DecidableEq

/-- `PhysiologicalModel` (`src/backend/app/services/digital_twin.py`): the
numeric simulation parameters.  The HR-zone and shooting-curve dicts are
always (re)computed from these parameters (`__post_init__`,
`modify_twin`), so they are modelled as derived functions of the twin
rather than stored fields. -/
structure PhysiologicalModel where
  athleteId : String
  name : String
  age : ℚ
  weight : ℚ
  height : ℚ
  vo2Max : ℚ
  lactateThreshold : ℚ
  anaerobicThreshold : ℚ
  hrMax : ℚ
  hrRest : ℚ
  optimalShootingHr : ℚ
  hrRecoveryRate : ℚ
  fatigueAccumulationRate : ℚ
  fatigueRecoveryRate : ℚ
  lactateClearanceRate : ℚ
  pressureResistance : ℚ
  focusDuration : ℚ
  stressRecovery : ℚ
  skiEfficiency : ℚ
  shootingTechnique : ℚ
  transitionSpeed : ℚ
  deriving Repr, DecidableEq

/-- `PhysiologicalModel.calculate_hr_zones`: five bands over
[hr_rest, hr_max] with `int()`-truncated boundaries at 0.6/0.7/0.8/0.9 of
hr_max. -/
def hrZones (t : PhysiologicalModel) : List (String × ℚ × ℚ) :=
  [("Z1", t.hrRest, (Biathlon.pyTrunc (t.hrMax * 0.6) : ℚ)),
   ("Z2", (Biathlon.pyTrunc (t.hrMax * 0.6) : ℚ), (Biathlon.pyTrunc (t.hrMax * 0.7) : ℚ)),
   ("Z3", (Biathlon.pyTrunc (t.hrMax * 0.7) : ℚ), (Biathlon.pyTrunc (t.hrMax * 0.8) : ℚ)),
   ("Z4", (Biathlon.pyTrunc (t.hrMax * 0.8) : ℚ), (Biathlon.pyTrunc (t.hrMax * 0.9) : ℚ)),
   ("Z5", (Biathlon.pyTrunc (t.hrMax * 0.9) : ℚ), t.hrMax)]

/-- `PhysiologicalModel.generate_shooting_curve`: the value stored at a curve
key — linear drop of 0.001/bpm below the optimal HR and 0.003/bpm above it,
scaled by the technique factor and clamped into [0.5, 1.0]. -/
def curveValue (t : PhysiologicalModel) (hr : ℤ) : ℚ :=
  let accuracy :=
    if (hr : ℚ) ≤ t.optimalShootingHr then 0.95 - (t.optimalShootingHr - hr) * 0.001
    else 0.95 - ((hr : ℚ) - t.optimalShootingHr) * 0.003
  max 0.5 (min 1 (accuracy * t.shootingTechnique))

/-- `.get(hr_key, 0.8)` on the shooting-curve dict: the keys are exactly
`range(100, 200, 5)`; any other key yields the 0.8 default. -/
def curveLookup (t : PhysiologicalModel) (key : ℤ) : ℚ :=
  if 100 ≤ key ∧ key ≤ 195 ∧ key % 5 = 0 then curveValue t key else 0.8

/-- `RaceSimulation`: race configuration for one simulation. -/
structure RaceSimulation where
  raceType : RaceType
  distance : ℚ
  laps : ℕ
  shootings : List String
  temperature : ℚ
  altitude : ℚ
  windSpeed : ℚ
  snowCondition : String
  startPosition : ℕ
  competitors : ℕ
  deriving Repr, DecidableEq

/-- `RaceSimulation.get_penalty_loop_distance`: 0.15 km for sprint/pursuit,
otherwise 0 (flat time penalty instead). -/
def penaltyLoopDistance (race : RaceSimulation) : ℚ :=
  if race.raceType = RaceType.sprint ∨ race.raceType = RaceType.pursuit then 0.15 else 0

/-- One entry of the simulation's `segments` list. -/
inductive Segment where
  | ski (lap : ℕ) (distance time speed hr intensity : ℚ)
  | shooting (position : String) (arrivalHr shootingHr : ℚ) (hits misses : ℕ)
      (pattern : List ℕ) (time accuracy : ℚ)
  deriving Repr, DecidableEq

/-- The mutable `state` dict threaded through `simulate_race`, plus the global
NumPy RNG position (`rng`): each `np.random.random()` call reads the stream at
the current index and advances it. -/
structure RaceState where
  time : ℚ
  distance : ℚ
  hr : ℚ
  lactate : ℚ
  fatigue : ℚ
  shotsFired : ℕ
  misses : ℕ
  lap : ℕ
  position : ℕ
  skiTime : ℚ
  shootingTime : ℚ
  segments : List Segment
  rng : ℕ
  deriving Repr, DecidableEq

/-- A pacing strategy: the `lap_{n}_intensity` dict, `none` for absent keys
(`.get` default 0.8 applied at the use site). -/
def Strategy : Type := ℕ → Option ℚ

/-- The initial race state of `simulate_race` (fatigue 0, lactate 2.0,
HR = hr_rest + 50). -/
def initState (t : PhysiologicalModel) (race : RaceSimulation) (rng0 : ℕ) : RaceState :=
  { time := 0, distance := 0, hr := t.hrRest + 50, lactate := 2, fatigue := 0,
    shotsFired := 0, misses := 0, lap := 1, position := race.startPosition,
    skiTime := 0, shootingTime := 0, segments := [], rng := rng0 }

/-- `DigitalTwinEngine.simulate_lap`: one lap of skiing — speed from
intensity/efficiency and the environmental factors, lactate update floored at
1.0, fatigue update capped at 1.0. -/
def simulateLap (t : PhysiologicalModel) (race : RaceSimulation) (st : RaceState)
    (strategy : Strategy) (lapNumber : ℕ) : RaceState :=
  let lapDistance := race.distance / race.laps
  let targetIntensity := (strategy lapNumber).getD 0.8
  let actualIntensity := targetIntensity * (1 - st.fatigue * 0.2)
  let baseSpeed := 25 * t.skiEfficiency * actualIntensity
  let altitudeFactor := 1 - race.altitude / 10000 * 0.05
  let tempFactor := 1 - |race.temperature + 5| * 0.001
  let windFactor := 1 - race.windSpeed * 0.01
  let actualSpeed := baseSpeed * altitudeFactor * tempFactor * windFactor
  let lapTime := lapDistance / actualSpeed * 3600
  let avgHr := t.hrMax * actualIntensity
  let lactateProduction := 2 + actualIntensity * 10
  let lactateClearance := t.lactateClearanceRate * lapTime
  let newLactate := st.lactate + lactateProduction - lactateClearance
  let newFatigue := min 1 (st.fatigue + t.fatigueAccumulationRate * actualIntensity)
  let seg := Segment.ski lapNumber lapDistance lapTime actualSpeed avgHr actualIntensity
  { st with
    time := st.time + lapTime
    distance := st.distance + lapDistance
    hr := avgHr
    lactate := max 1 newLactate
    fatigue := newFatigue
    skiTime := st.skiTime + lapTime
    segments := st.segments ++ [seg] }

/-- `DigitalTwinEngine.simulate_shooting`: five independent Bernoulli shots at
the HR/position/fatigue/wind-adjusted accuracy, the fifth scaled by pressure
resistance; `for shot in range(5)` is unrolled to its five iterations, each
consuming one draw of the RNG stream. -/
def simulateShooting (t : PhysiologicalModel) (st : RaceState) (position : String)
    (race : RaceSimulation) (stream : ℕ → ℚ) : RaceState :=
  let arrivalHr := st.hr
  let prepTime := t.transitionSpeed
  let recoveryTime := prepTime
  let recoveredHr := arrivalHr - t.hrRecoveryRate * recoveryTime
  let shootingHr := max (t.hrRest + 20) recoveredHr
  let hrKey := Biathlon.pyRound (shootingHr / 5) * 5
  let curveAccuracy := curveLookup t hrKey
  let positionAccuracy := if position = "standing" then curveAccuracy * 0.9 else curveAccuracy
  let fatiguePenalty := st.fatigue * 0.15
  let fatigueAccuracy := positionAccuracy * (1 - fatiguePenalty)
  let windPenalty := min 0.2 (race.windSpeed * 0.02)
  let baseAccuracy := fatigueAccuracy * (1 - windPenalty)
  let mkShot := fun (shot : ℕ) =>
    let shotAccuracy := if shot = 4 then baseAccuracy * t.pressureResistance else baseAccuracy
    if stream (st.rng + shot) < shotAccuracy then (1 : ℕ) else 0
  let pattern := [mkShot 0, mkShot 1, mkShot 2, mkShot 3, mkShot 4]
  let hits := pattern.sum
  let misses := 5 - hits
  let shootingTime := prepTime + 3 * 5
  let seg := Segment.shooting position arrivalHr shootingHr hits misses pattern
    shootingTime ((hits : ℚ) / 5 * 100)
  { st with
    time := st.time + shootingTime
    misses := st.misses + misses
    shotsFired := st.shotsFired + 5
    shootingTime := st.shootingTime + shootingTime
    segments := st.segments ++ [seg]
    rng := st.rng + 5 }

/-- `DigitalTwinEngine.simulate_penalty_loops`: a flat 60 s per miss without a
penalty loop (individual), otherwise penalty-loop skiing time per miss at the
fatigue-reduced loop speed. -/
def simulatePenaltyLoops (t : PhysiologicalModel) (st : RaceState) (missCount : ℕ)
    (race : RaceSimulation) : ℚ :=
  let loopDistance := penaltyLoopDistance race
  if loopDistance = 0 then (missCount : ℚ) * 60
  else
    let loopSpeed := 20 * t.skiEfficiency * (1 - st.fatigue * 0.3)
    let loopTime := loopDistance / loopSpeed * 3600
    (missCount : ℚ) * loopTime

/-- `DigitalTwinEngine.get_winning_time`: fixed per-race-type winning times;
the source always reads the `'W'` column, with overall default 1500. -/
def getWinningTime (race : RaceSimulation) : ℚ :=
  match race.raceType with
  | RaceType.sprint => 1200
  | RaceType.pursuit => 1800
  | RaceType.individual => 2400
  | RaceType.massStart => 1920
  | RaceType.other => 1500

/-- `DigitalTwinEngine.calculate_final_position`: one position lost per
started 30 s behind the reference winning time, capped at the field size. -/
def calculateFinalPosition (st : RaceState) (race : RaceSimulation) : ℕ :=
  min race.competitors
    (race.startPosition + (Biathlon.pyTrunc (max 0 (st.time - getWinningTime race) / 30)).toNat)

/-- `DigitalTwinEngine.get_optimal_strategy`: per-lap target intensities as
multiples of the lactate threshold, keyed by race type. -/
def getOptimalStrategy (t : PhysiologicalModel) (race : RaceSimulation) : Strategy :=
  fun lap =>
    if 1 ≤ lap ∧ lap ≤ race.laps then
      some (match race.raceType with
        | RaceType.sprint =>
          if lap = 1 then t.lactateThreshold * 0.95
          else if lap = race.laps then t.lactateThreshold * 1.05
          else t.lactateThreshold
        | RaceType.individual => t.lactateThreshold * 0.9
        | _ =>
          if lap ≤ 2 then t.lactateThreshold * 0.92
          else t.lactateThreshold * 0.98)
    else none

/-- One iteration of the `for lap in range(1, race.laps + 1)` loop of
`simulate_race`: ski the lap, then (on every non-final lap) shoot a bout —
prone on laps 1–2, standing after — and add penalty time when the cumulative
`misses` counter returned by the shooting dict is positive (the source passes
that cumulative counter to `simulate_penalty_loops`). -/
def raceStep (t : PhysiologicalModel) (race : RaceSimulation) (strategy : Strategy)
    (stream : ℕ → ℚ) (lap : ℕ) (st : RaceState) : RaceState :=
  let st1 := simulateLap t race st strategy lap
  if lap < race.laps then
    let pos := if lap ≤ 2 then "prone" else "standing"
    let st2 := simulateShooting t st1 pos race stream
    if 0 < st2.misses then
      { st2 with time := st2.time + simulatePenaltyLoops t st2 st2.misses race }
    else st2
  else st1

/-- The race state after the first k laps of `simulate_race`. -/
def raceStates (t : PhysiologicalModel) (race : RaceSimulation) (strategy : Strategy)
    (stream : ℕ → ℚ) (rng0 : ℕ) : ℕ → RaceState
  | 0 => initState t race rng0
  | k + 1 => raceStep t race strategy stream (k + 1) (raceStates t race strategy stream rng0 k)

/-- The result dict of `simulate_race`.  `avg_hr` is read with default 0 and
never written; `max_hr` is read with default `twin.hr_max` and never
written. -/
structure SimulationResult where
  athleteId : String
  name : String
  raceType : RaceType
  totalTime : ℚ
  skiTime : ℚ
  shootingTime : ℚ
  totalMisses : ℕ
  finalPosition : ℕ
  avgHr : ℚ
  maxHr : ℚ
  fatigueLevel : ℚ
  segments : List Segment
  deriving Repr, DecidableEq

/-- `DigitalTwinEngine.simulate_race`: run all laps (strategy defaulting to
`get_optimal_strategy`) and assemble the result; also returns the advanced RNG
position, modelling the global NumPy RNG side effect. -/
def simulateRace (t : PhysiologicalModel) (race : RaceSimulation)
    (strategyOpt : Option Strategy) (stream : ℕ → ℚ) (rng0 : ℕ) :
    SimulationResult × ℕ :=
  let strategy := strategyOpt.getD (getOptimalStrategy t race)
  let final := raceStates t race strategy stream rng0 race.laps
  ({ athleteId := t.athleteId
     name := t.name
     raceType := race.raceType
     totalTime := final.time
     skiTime := final.skiTime
     shootingTime := final.shootingTime
     totalMisses := final.misses
     finalPosition := calculateFinalPosition final race
     avgHr := 0
     maxHr := t.hrMax
     fatigueLevel := final.fatigue
     segments := final.segments }, final.rng)

/-- A `what-if` parameter override: an absolute value or a
`"±p percent"` marker. -/
inductive Modification where
  | absolute (v : ℚ)
  | percent (p : ℚ)

/-- `modify_twin`'s per-attribute update: an absolute value replaces the
current one; a percent marker multiplies it by (1 + p/100). -/
def applyModification (current : ℚ) : Modification → ℚ
  | .absolute v => v
  | .percent p => current * (1 + p / 100)

/-- `DigitalTwinEngine.modify_twin`: deep-copy the twin, apply each named
override to the attribute of that name, then recompute the HR zones and
shooting curve (both derived functions here, so recomputation is implicit). -/
def modifyTwin (t : PhysiologicalModel) (mods : String → Option Modification) :
    PhysiologicalModel :=
  let app := fun (attr : String) (cur : ℚ) =>
    match mods attr with
    | some m => applyModification cur m
    | none => cur
  { t with
    age := app "age" t.age
    weight := app "weight" t.weight
    height := app "height" t.height
    vo2Max := app "vo2_max" t.vo2Max
    lactateThreshold := app "lactate_threshold" t.lactateThreshold
    anaerobicThreshold := app "anaerobic_threshold" t.anaerobicThreshold
    hrMax := app "hr_max" t.hrMax
    hrRest := app "hr_rest" t.hrRest
    optimalShootingHr := app "optimal_shooting_hr" t.optimalShootingHr
    hrRecoveryRate := app "hr_recovery_rate" t.hrRecoveryRate
    fatigueAccumulationRate := app "fatigue_accumulation_rate" t.fatigueAccumulationRate
    fatigueRecoveryRate := app "fatigue_recovery_rate" t.fatigueRecoveryRate
    lactateClearanceRate := app "lactate_clearance_rate" t.lactateClearanceRate
    pressureResistance := app "pressure_resistance" t.pressureResistance
    focusDuration := app "focus_duration" t.focusDuration
    stressRecovery := app "stress_recovery" t.stressRecovery
    skiEfficiency := app "ski_efficiency" t.skiEfficiency
    shootingTechnique := app "shooting_technique" t.shootingTechnique
    transitionSpeed := app "transition_speed" t.transitionSpeed }

/-- The modification set of claim C6: "+0 percent" on every twin parameter. -/
def zeroPercentAll : String → Option Modification := fun _ => some (.percent 0)

/-- The improvement dict assembled by `run_what_if_scenario`. -/
structure WhatIfOutcome where
  timeSaved : ℚ
  positionsGained : ℤ
  shootingImprovement : ℤ
  baseline : SimulationResult
  modified : SimulationResult
  deriving Repr, DecidableEq

/-- `DigitalTwinEngine.run_what_if_scenario` specialised to the "+0 percent on
every parameter" scenario of claim C6: build the modified twin, run the
baseline simulation, then run the modified simulation.  The two runs draw from
the same process-wide RNG stream in sequence — the modified run starts at the
index where the baseline run stopped. -/
def runWhatIfZeroPercent (t : PhysiologicalModel) (race : RaceSimulation)
    (stream : ℕ → ℚ) : WhatIfOutcome :=
  let modifiedTwin := modifyTwin t zeroPercentAll
  let baselineRun := simulateRace t race none stream 0
  let modifiedRun := simulateRace modifiedTwin race none stream baselineRun.2
  { timeSaved := baselineRun.1.totalTime - modifiedRun.1.totalTime
    positionsGained := (baselineRun.1.finalPosition : ℤ) - (modifiedRun.1.finalPosition : ℤ)
    shootingImprovement := (baselineRun.1.totalMisses : ℤ) - (modifiedRun.1.totalMisses : ℤ)
    baseline := baselineRun.1
    modified := modifiedRun.1 }

/-- Concrete twin used by the C6 counterexample and the C10 witness. -/
def sampleTwin : PhysiologicalModel :=
  { athleteId := "CZE1", name := "Test", age := 25, weight := 60, height := 170,
    vo2Max := 65, lactateThreshold := 0.8, anaerobicThreshold := 0.85,
    hrMax := 200, hrRest := 50, optimalShootingHr := 150, hrRecoveryRate := 2,
    fatigueAccumulationRate := 0, fatigueRecoveryRate := 0.03,
    lactateClearanceRate := 0.025, pressureResistance := 1, focusDuration := 30,
    stressRecovery := 0.7, skiEfficiency := 0.75, shootingTechnique := 1,
    transitionSpeed := 25 }

/-- Concrete 2-lap sprint (one shooting bout) for the C6 counterexample. -/
def sampleRace : RaceSimulation :=
  { raceType := RaceType.sprint, distance := 7.5, laps := 2,
    shootings := ["prone", "prone", "standing", "standing"],
    temperature := -5, altitude := 0, windSpeed := 0, snowCondition := "hard",
    startPosition := 1, competitors := 30 }

/-- Concrete RNG stream: the first five draws (consumed by the baseline bout)
are 0, every later draw (consumed by the modified run's bout) is 1. -/
def sampleStream : ℕ → ℚ := fun n => if n < 5 then 0 else 1

end DigitalTwin

namespace WindModel

/-- Modelled from the spec: Twin B's Wind Compensation Model (§4.9) is
declared in the specification but its module is not among the available
source files; the fixed projectile constants are velocity 320 m/s, target
distance 50 m, target diameter 0.045 m. -/
def bulletVelocity : ℚ := 320

/-- Modelled from the spec: target distance in metres. -/
def targetDistance : ℚ := 50

/-- Modelled from the spec: target diameter in metres. -/
def targetDiameter : ℚ := 0.045

/-- Modelled from the spec: conversion of a wind direction in degrees to a
12-position clock value (30° per clock position). -/
def windClock (direction : ℚ) : ℤ := Biathlon.pyRound (direction / 30)

/-- Modelled from the spec: wind value at the cardinal clock positions — 1.0
at 3/9 o'clock (full crosswind), 0.0 at 6/12 o'clock (head/tail wind).
Non-cardinal positions use a sine interpolation that no claim exercises; they
are left out of this exact-arithmetic model as `none`. -/
def cardinalWindValue (clock : ℤ) : Option ℚ :=
  if clock = 3 ∨ clock = 9 then some 1
  else if clock = 0 ∨ clock = 6 ∨ clock = 12 then some 0
  else none

/-- Modelled from the spec: drift in metres =
wind_speed × wind_value × (distance / velocity) × 0.5. -/
def drift (windSpeed windValue : ℚ) : ℚ :=
  windSpeed * windValue * (targetDistance / bulletVelocity) * 0.5

/-- Modelled from the spec: drift expressed in target diameters. -/
def driftDiameters (driftMeters : ℚ) : ℚ := driftMeters / targetDiameter

/-- Modelled from the spec: hit-probability change bands — 0 below half a
diameter, −0.05 below one, −0.15 below one and a half, −0.30 beyond. -/
def hitProbabilityChange (dd : ℚ) : ℚ :=
  if dd < 0.5 then 0
  else if dd < 1 then -0.05
  else if dd < 1.5 then -0.15
  else -0.30

end WindModel

namespace DigitalTwin

/-- The shooting update leaves the fatigue level unchanged. -/
theorem simulateShooting_fatigue (t : PhysiologicalModel) (st : RaceState)
    (pos : String) (race : RaceSimulation) (stream : ℕ → ℚ) :
    (simulateShooting t st pos race stream).fatigue = st.fatigue := rfl

/-- The shooting update leaves the lactate level unchanged. -/
theorem simulateShooting_lactate (t : PhysiologicalModel) (st : RaceState)
    (pos : String) (race : RaceSimulation) (stream : ℕ → ℚ) :
    (simulateShooting t st pos race stream).lactate = st.lactate := rfl

/-- One lap update: with a non-negative accumulation rate and target
intensity, starting from fatigue in [0,1], the new fatigue does not decrease
and stays capped at 1, and the new lactate is floored at 1. -/
theorem simulateLap_fatigue_bounds (t : PhysiologicalModel) (race : RaceSimulation)
    (st : RaceState) (strategy : Strategy) (lap : ℕ)
    (hacc : 0 ≤ t.fatigueAccumulationRate) (hf0 : 0 ≤ st.fatigue) (hf1 : st.fatigue ≤ 1)
    (htar : 0 ≤ (strategy lap).getD 0.8) :
    st.fatigue ≤ (simulateLap t race st strategy lap).fatigue ∧
      (simulateLap t race st strategy lap).fatigue ≤ 1 ∧
      1 ≤ (simulateLap t race st strategy lap).lactate := by
  have hint : 0 ≤ (strategy lap).getD 0.8 * (1 - st.fatigue * 0.2) :=
    mul_nonneg htar (by linarith)
  have hprod : 0 ≤ t.fatigueAccumulationRate *
      ((strategy lap).getD 0.8 * (1 - st.fatigue * 0.2)) :=
    mul_nonneg hacc hint
  simp only [simulateLap]
  exact ⟨le_min hf1 (by linarith), min_le_left _ _, le_max_left _ _⟩

/-- One loop iteration of `simulate_race` preserves the state invariant:
fatigue in [0,1] and lactate at least 1. -/
theorem raceStep_state_bounds (t : PhysiologicalModel) (race : RaceSimulation)
    (strategy : Strategy) (stream : ℕ → ℚ) (lap : ℕ) (st : RaceState)
    (hacc : 0 ≤ t.fatigueAccumulationRate) (htar : 0 ≤ (strategy lap).getD 0.8)
    (hf0 : 0 ≤ st.fatigue) (hf1 : st.fatigue ≤ 1) :
    0 ≤ (raceStep t race strategy stream lap st).fatigue ∧
      (raceStep t race strategy stream lap st).fatigue ≤ 1 ∧
      1 ≤ (raceStep t race strategy stream lap st).lactate := by
  obtain ⟨h1, h2, h3⟩ := simulateLap_fatigue_bounds t race st strategy lap hacc hf0 hf1 htar
  simp only [raceStep]
  split_ifs <;> exact ⟨hf0.trans h1, h2, h3⟩

end DigitalTwin

section Claims

/-- Helper for C2: on the whole range 11..40 (where the claim alleges a
disagreement) the simplified formula and the explicit table coincide. -/
theorem rankToPoints_agree (r : ℤ) (h1 : 11 ≤ r) (h2 : r ≤ 40) :
    IBUService.rankToPoints r = IBUFullService.pointsForRank r := by
  interval_cases r <;> decide

/-- C2 counterexample: the claimed disagreement does not exist — there is no
rank r with 11 ≤ r ≤ 40 at which `IBUDataService._rank_to_points` differs from
the per-rank value used by `IBUFullService._calculate_points`. -/
theorem c2_no_disagreement :
    ¬ ∃ r : ℤ, 11 ≤ r ∧ r ≤ 40 ∧
      IBUService.rankToPoints r ≠ IBUFullService.pointsForRank r := by
  rintro ⟨r, h1, h2, hne⟩
  exact hne (by interval_cases r <;> decide)

/-- C2 (amended): for every rank r with 11 ≤ r ≤ 40 the two implementations
agree, and both equal the simplified value 41 − r: the explicit World-Cup table
is exactly 41 − rank on that range. -/
theorem c2_points_implementations_agree (r : ℤ) (h1 : 11 ≤ r) (h2 : r ≤ 40) :
    IBUService.rankToPoints r = IBUFullService.pointsForRank r ∧
      IBUFullService.pointsForRank r = 41 - r := by
  refine ⟨rankToPoints_agree r h1 h2, ?_⟩
  interval_cases r <;> decide

/-- C2 witness: the agreement instantiated at rank 20 (both give 21 points). -/
theorem c2_points_implementations_agree_witness :
    IBUService.rankToPoints 20 = IBUFullService.pointsForRank 20 ∧
      IBUFullService.pointsForRank 20 = 41 - 20 :=
  c2_points_implementations_agree 20 (by decide) (by decide)

/-- C3: parsing the shooting string "0+1+0+2" yields 3 total misses, the
per-bout pattern [0,1,0,2], 1 prone miss (first two bouts) and 2 standing
misses (last two bouts). -/
theorem c3_parse_shooting :
    IBUFullService.parseShooting "0+1+0+2" =
      ⟨3, [0, 1, 0, 2], some 1, some 2⟩ := by
  decide

/-- C4: for any inputs with hr_correlation ∈ [-1,1], the resistance score is
exactly the documented weighted sum clamped into [0,100], and therefore always
lies in [0,100]. -/
theorem c4_resistance_score (hc tp re pr : ℚ) (h1 : -1 ≤ hc) (h2 : hc ≤ 1) :
    FatigueEngine.calculateResistanceScore hc tp re pr =
      min 100 (max 0 (0.25 * ((1 - |hc|) * 100) + 0.25 * max 0 (100 - tp * 20)
        + 0.30 * re + 0.20 * pr)) ∧
    0 ≤ FatigueEngine.calculateResistanceScore hc tp re pr ∧
    FatigueEngine.calculateResistanceScore hc tp re pr ≤ 100 := by
  simp only [FatigueEngine.calculateResistanceScore]
  refine ⟨?_, le_min (by norm_num) (le_max_left 0 _), min_le_left _ _⟩
  have h : (1 - |hc|) * 100 * 0.25 + max 0 (100 - tp * 20) * 0.25
      + re * 0.30 + pr * 0.20
      = 0.25 * ((1 - |hc|) * 100) + 0.25 * max 0 (100 - tp * 20)
        + 0.30 * re + 0.20 * pr := by ring
  rw [h]

/-- C4 witness: the score formula and bounds at a concrete input, including a
negative recovery efficiency. -/
theorem c4_resistance_score_witness :
    -1 ≤ (-1/2 : ℚ) ∧ (-1/2 : ℚ) ≤ 1 ∧
    (FatigueEngine.calculateResistanceScore (-1/2) 7 (-30) 50 =
      min 100 (max 0 (0.25 * ((1 - |(-1/2 : ℚ)|) * 100)
        + 0.25 * max 0 (100 - 7 * 20) + 0.30 * (-30) + 0.20 * 50)) ∧
    0 ≤ FatigueEngine.calculateResistanceScore (-1/2) 7 (-30) 50 ∧
    FatigueEngine.calculateResistanceScore (-1/2) 7 (-30) 50 ≤ 100) :=
  ⟨by norm_num, by norm_num,
    c4_resistance_score (-1/2) 7 (-30) 50 (by norm_num) (by norm_num)⟩

/-- C1: when the single external-authority call raises, the service returns
`None` (it never propagates the exception) and the endpoint responds 200 (not
a 5xx) with the documented default payload: total_races 0, consistency_score
50.0, shooting defaults 80/85/75. -/
theorem c1_fail_soft (sqrtFn : ℚ → ℚ) (athleteId err : String) :
    IBUFullService.getAthletePerformance sqrtFn athleteId (.error err) = none ∧
    AthletesEndpoint.getPerformance sqrtFn athleteId (.error err) =
      ⟨200, .fallback (AthletesEndpoint.defaultPerformance athleteId)⟩ ∧
    (AthletesEndpoint.getPerformance sqrtFn athleteId (.error err)).status = 200 ∧
    ¬ 500 ≤ (AthletesEndpoint.getPerformance sqrtFn athleteId (.error err)).status ∧
    (AthletesEndpoint.defaultPerformance athleteId).totalRaces = 0 ∧
    (AthletesEndpoint.defaultPerformance athleteId).consistencyScore = 50 ∧
    (AthletesEndpoint.defaultPerformance athleteId).shooting = ⟨80, 85, 75, none⟩ := by
  refine ⟨rfl, rfl, rfl, ?_, rfl, rfl, rfl⟩
  show ¬ (500 : ℕ) ≤ 200
  decide

/-- C5 counterexample: with no bouts at all in the requested position the code
returns 50.0, not the claimed default 75. -/
theorem c5_empty_position_gives_50 :
    FatigueEngine.calculatePositionResistance [] "prone" = 50 ∧ (50 : ℚ) ≠ 75 := by
  decide

/-- C5 (amended): position resistance is `min 100 (fatigued_mean / fresh_mean
× 100)` when both HR groups are non-empty and the fresh mean is positive; it
is 75 when the position has bouts but either group is empty or the fresh mean
is not positive; and it is 50 (not 75) when the athlete has no bouts at all in
that position. -/
theorem c5_position_resistance (bouts : List FatigueEngine.FatigueBout) (position : String) :
    (FatigueEngine.positionBoutsOf bouts position = [] →
      FatigueEngine.calculatePositionResistance bouts position = 50) ∧
    (FatigueEngine.positionBoutsOf bouts position ≠ [] →
      FatigueEngine.freshAccOf bouts position ≠ [] →
      FatigueEngine.fatiguedAccOf bouts position ≠ [] →
      0 < Biathlon.meanQ (FatigueEngine.freshAccOf bouts position) →
      FatigueEngine.calculatePositionResistance bouts position =
        min 100 (Biathlon.meanQ (FatigueEngine.fatiguedAccOf bouts position) /
          Biathlon.meanQ (FatigueEngine.freshAccOf bouts position) * 100)) ∧
    (FatigueEngine.positionBoutsOf bouts position ≠ [] →
      (FatigueEngine.freshAccOf bouts position = [] ∨
        FatigueEngine.fatiguedAccOf bouts position = [] ∨
        Biathlon.meanQ (FatigueEngine.freshAccOf bouts position) ≤ 0) →
      FatigueEngine.calculatePositionResistance bouts position = 75) := by
  refine ⟨?_, ?_, ?_⟩
  · intro h
    rw [FatigueEngine.calculatePositionResistance, if_pos h]
  · intro h1 h2 h3 h4
    rw [FatigueEngine.calculatePositionResistance, if_neg h1, if_pos ⟨h2, h3⟩, if_pos h4]
  · intro h1 h2
    rw [FatigueEngine.calculatePositionResistance, if_neg h1]
    split_ifs with hc hp
    · rcases h2 with h | h | h
      · exact (hc.1 h).elim
      · exact (hc.2 h).elim
      · exact absurd hp (not_lt.mpr h)
    · rfl
    · rfl

/-- C5 witness: two prone bouts, one fresh (HR 150, 4/5) and one fatigued
(HR 180, 3/5); the resistance is min(100, (3/5)/(4/5)×100) = 75. -/
theorem c5_position_resistance_witness :
    FatigueEngine.calculatePositionResistance
        [⟨"prone", 150, 4, 5⟩, ⟨"prone", 180, 3, 5⟩] "prone" =
      min 100 (Biathlon.meanQ (FatigueEngine.fatiguedAccOf
          [⟨"prone", 150, 4, 5⟩, ⟨"prone", 180, 3, 5⟩] "prone") /
        Biathlon.meanQ (FatigueEngine.freshAccOf
          [⟨"prone", 150, 4, 5⟩, ⟨"prone", 180, 3, 5⟩] "prone") * 100) :=
  (c5_position_resistance [⟨"prone", 150, 4, 5⟩, ⟨"prone", 180, 3, 5⟩] "prone").2.1
    (by norm_num [FatigueEngine.positionBoutsOf, List.filter]
        exact List.cons_ne_nil _ _)
    (by norm_num [FatigueEngine.freshAccOf, FatigueEngine.positionBoutsOf, List.filter])
    (by norm_num [FatigueEngine.fatiguedAccOf, FatigueEngine.positionBoutsOf, List.filter])
    (by norm_num [FatigueEngine.freshAccOf, FatigueEngine.positionBoutsOf,
      FatigueEngine.boutAccuracy, Biathlon.meanQ, List.filter])

/-- C7: in all three implementations (external adapter, tabular store,
analytics engine), when the average of the 5 most recent ranks is strictly
below the overall average rank, the recent form `(overall − recent) × 2` is
strictly positive. -/
theorem c7_recent_form_sign :
    (∀ ranks : List ℤ, 5 ≤ ranks.length →
      ((ranks.take 5).sum : ℚ) / 5 < Biathlon.meanZ ranks →
      0 < IBUFullService.recentForm ranks) ∧
    (∀ ranks : List ℤ, 5 ≤ ranks.length →
      Biathlon.meanZ (ranks.drop (ranks.length - 5)) < Biathlon.meanZ ranks →
      0 < DataService.recentForm ranks) ∧
    (∀ results : List (Option ℤ), 5 ≤ results.length →
      AnalyticsService.truthyRanks (results.drop (results.length - 5)) ≠ [] →
      Biathlon.meanZ (AnalyticsService.truthyRanks (results.drop (results.length - 5))) <
        Biathlon.meanZ (AnalyticsService.truthyRanks results) →
      0 < AnalyticsService.calculateRecentForm results) := by
  refine ⟨?_, ?_, ?_⟩
  · intro ranks h5 hlt
    rw [IBUFullService.recentForm, if_pos h5]
    linarith
  · intro ranks h5 hlt
    rw [DataService.recentForm, if_pos h5]
    linarith
  · intro rs h5 hrecent hlt
    have hall : AnalyticsService.truthyRanks rs ≠ [] := by
      intro hemp
      apply hrecent
      have hmem := List.filterMap_eq_nil_iff.mp hemp
      exact List.filterMap_eq_nil_iff.mpr (fun a ha => hmem a (List.mem_of_mem_drop ha))
    rw [AnalyticsService.calculateRecentForm, if_neg (not_lt.mpr h5), if_neg ?_]
    · linarith
    · rintro (h | h)
      · exact hrecent (List.isEmpty_iff.mp h)
      · exact hall (List.isEmpty_iff.mp h)

/-- C7 witness: the three sign statements at concrete rank histories whose 5
most recent ranks average 1 against an overall average of 17.5. -/
theorem c7_recent_form_sign_witness :
    0 < IBUFullService.recentForm [1, 1, 1, 1, 1, 100] ∧
    0 < DataService.recentForm [100, 1, 1, 1, 1, 1] ∧
    0 < AnalyticsService.calculateRecentForm
      [some 100, some 1, some 1, some 1, some 1, some 1] :=
  ⟨c7_recent_form_sign.1 [1, 1, 1, 1, 1, 100] (by decide)
     (by norm_num [Biathlon.meanZ]),
   c7_recent_form_sign.2.1 [100, 1, 1, 1, 1, 1] (by decide)
     (by norm_num [Biathlon.meanZ]),
   c7_recent_form_sign.2.2 [some 100, some 1, some 1, some 1, some 1, some 1]
     (by decide) (by decide)
     (by norm_num [Biathlon.meanZ, AnalyticsService.truthyRanks,
        List.filterMap_cons, List.sum_cons])⟩

/-- C8 counterexample: for RR intervals [0, 100] there is one successive
difference, and it exceeds 50 ms; the claimed formula (count divided by the
number of successive differences) gives 100, but the code divides by the
number of intervals and returns 50. -/
theorem c8_pnn50_denominator :
    (FeatureEngineer.extractHrvFeatures (fun q => q) [0, 100]).map
        FeatureEngineer.HrvFeatures.pnn50 = some 50 ∧
    FeatureEngineer.pnn50SpecFormula [0, 100] = 100 ∧ (50 : ℚ) ≠ 100 := by
  refine ⟨?_, ?_, by norm_num⟩
  · norm_num [FeatureEngineer.extractHrvFeatures, FeatureEngineer.successiveDiffs,
      Biathlon.meanQ, FeatureEngineer.populationVariance, List.countP, List.countP.go]
  · norm_num [FeatureEngineer.pnn50SpecFormula, FeatureEngineer.successiveDiffs,
      List.countP, List.countP.go]

/-- C8 (amended): for at least 2 RR intervals, pNN50 equals the count of
absolute successive differences exceeding 50 ms divided by the NUMBER OF RR
INTERVALS, times 100; consequently it is bounded by 100·(n−1)/n and can never
reach 100. -/
theorem c8_pnn50 (sqrtFn : ℚ → ℚ) (rr : List ℚ) (h : 2 ≤ rr.length) :
    (FeatureEngineer.extractHrvFeatures sqrtFn rr).map FeatureEngineer.HrvFeatures.pnn50
      = some ((((FeatureEngineer.successiveDiffs rr).countP
          (fun x => decide (50 < |x|))) : ℚ) / rr.length * 100) ∧
    (((FeatureEngineer.successiveDiffs rr).countP
        (fun x => decide (50 < |x|))) : ℚ) / rr.length * 100
      ≤ 100 * ((rr.length : ℚ) - 1) / rr.length := by
  constructor
  · rw [FeatureEngineer.extractHrvFeatures, if_neg (by omega)]
    rfl
  · have hlen : (FeatureEngineer.successiveDiffs rr).length = rr.length - 1 := by
      simp only [FeatureEngineer.successiveDiffs, List.length_zipWith, List.length_drop]
      omega
    have hcount : ((FeatureEngineer.successiveDiffs rr).countP
        (fun x => decide (50 < |x|))) ≤ rr.length - 1 :=
      hlen ▸ List.countP_le_length _
    have h1 : (1 : ℕ) ≤ rr.length := by omega
    have hq : (((FeatureEngineer.successiveDiffs rr).countP
        (fun x => decide (50 < |x|))) : ℚ) ≤ (rr.length : ℚ) - 1 := by
      calc (((FeatureEngineer.successiveDiffs rr).countP
            (fun x => decide (50 < |x|))) : ℚ)
          ≤ ((rr.length - 1 : ℕ) : ℚ) := by exact_mod_cast hcount
        _ = (rr.length : ℚ) - 1 := by rw [Nat.cast_sub h1]; norm_num
    have hpos : (0 : ℚ) < rr.length := by
      have h0 : (0 : ℕ) < rr.length := by omega
      exact_mod_cast h0
    calc (((FeatureEngineer.successiveDiffs rr).countP
          (fun x => decide (50 < |x|))) : ℚ) / rr.length * 100
        = (((FeatureEngineer.successiveDiffs rr).countP
            (fun x => decide (50 < |x|))) : ℚ) * 100 / rr.length := by ring
      _ ≤ 100 * ((rr.length : ℚ) - 1) / rr.length := by
          apply (div_le_div_iff_of_pos_right hpos).mpr
          linarith

/-- Helper for the race evaluations: the shooting-HR bucket hit in the
concrete scenario, 102 bpm, rounds to bucket key 20·5. -/
theorem pyRound_102_5 : Biathlon.pyRound (102/5 : ℚ) = 20 := by
  have hf : (⌊(102/5 : ℚ)⌋ : ℤ) = 20 := by
    rw [Int.floor_eq_iff]
    norm_num
  rw [Biathlon.pyRound, hf]
  norm_num

/-- Helper for the race evaluations: the two shooting-position strings
differ. -/
theorem prone_ne_standing : (("prone" : String) = "standing") = False :=
  eq_false (by decide)

/-- C6 counterexample: in `run_what_if_scenario` with the "+0 percent on every
parameter" modification, the baseline and modified simulations draw different
values from the shared RNG stream (the modified run continues where the
baseline stopped), so the results differ: on the concrete twin/race/stream the
baseline bout hits all five targets while the modified bout misses all
five. -/
theorem c6_what_if_not_idempotent :
    (DigitalTwin.runWhatIfZeroPercent DigitalTwin.sampleTwin DigitalTwin.sampleRace
      DigitalTwin.sampleStream).baseline.totalMisses = 0 ∧
    (DigitalTwin.runWhatIfZeroPercent DigitalTwin.sampleTwin DigitalTwin.sampleRace
      DigitalTwin.sampleStream).modified.totalMisses = 5 ∧
    (DigitalTwin.runWhatIfZeroPercent DigitalTwin.sampleTwin DigitalTwin.sampleRace
        DigitalTwin.sampleStream).modified ≠
      (DigitalTwin.runWhatIfZeroPercent DigitalTwin.sampleTwin DigitalTwin.sampleRace
        DigitalTwin.sampleStream).baseline := by
  have hbase : (DigitalTwin.runWhatIfZeroPercent DigitalTwin.sampleTwin DigitalTwin.sampleRace
      DigitalTwin.sampleStream).baseline =
      (DigitalTwin.simulateRace DigitalTwin.sampleTwin DigitalTwin.sampleRace none
        DigitalTwin.sampleStream 0).1 := by
    simp only [DigitalTwin.runWhatIfZeroPercent]
  have hrng : (DigitalTwin.simulateRace DigitalTwin.sampleTwin DigitalTwin.sampleRace none
      DigitalTwin.sampleStream 0).2 = 5 := by
    norm_num [DigitalTwin.simulateRace, DigitalTwin.raceStates, DigitalTwin.raceStep,
      DigitalTwin.simulateLap, DigitalTwin.simulateShooting, DigitalTwin.initState,
      DigitalTwin.getOptimalStrategy, DigitalTwin.curveLookup, DigitalTwin.curveValue,
      DigitalTwin.simulatePenaltyLoops, DigitalTwin.penaltyLoopDistance,
      DigitalTwin.sampleTwin, DigitalTwin.sampleRace, DigitalTwin.sampleStream,
      pyRound_102_5, prone_ne_standing, Option.getD, min_def, max_def]
  have hmod : (DigitalTwin.runWhatIfZeroPercent DigitalTwin.sampleTwin DigitalTwin.sampleRace
      DigitalTwin.sampleStream).modified =
      (DigitalTwin.simulateRace (DigitalTwin.modifyTwin DigitalTwin.sampleTwin
          DigitalTwin.zeroPercentAll) DigitalTwin.sampleRace none
        DigitalTwin.sampleStream 5).1 := by
    simp only [DigitalTwin.runWhatIfZeroPercent, hrng]
  have hb : (DigitalTwin.runWhatIfZeroPercent DigitalTwin.sampleTwin DigitalTwin.sampleRace
      DigitalTwin.sampleStream).baseline.totalMisses = 0 := by
    rw [hbase]
    norm_num [DigitalTwin.simulateRace, DigitalTwin.raceStates, DigitalTwin.raceStep,
      DigitalTwin.simulateLap, DigitalTwin.simulateShooting, DigitalTwin.initState,
      DigitalTwin.getOptimalStrategy, DigitalTwin.curveLookup, DigitalTwin.curveValue,
      DigitalTwin.simulatePenaltyLoops, DigitalTwin.penaltyLoopDistance,
      DigitalTwin.sampleTwin, DigitalTwin.sampleRace, DigitalTwin.sampleStream,
      pyRound_102_5, prone_ne_standing, Option.getD, min_def, max_def]
  have hm : (DigitalTwin.runWhatIfZeroPercent DigitalTwin.sampleTwin DigitalTwin.sampleRace
      DigitalTwin.sampleStream).modified.totalMisses = 5 := by
    rw [hmod]
    norm_num [DigitalTwin.simulateRace, DigitalTwin.raceStates, DigitalTwin.raceStep,
      DigitalTwin.simulateLap, DigitalTwin.simulateShooting, DigitalTwin.initState,
      DigitalTwin.getOptimalStrategy, DigitalTwin.curveLookup, DigitalTwin.curveValue,
      DigitalTwin.simulatePenaltyLoops, DigitalTwin.penaltyLoopDistance,
      DigitalTwin.modifyTwin, DigitalTwin.zeroPercentAll, DigitalTwin.applyModification,
      DigitalTwin.sampleTwin, DigitalTwin.sampleRace, DigitalTwin.sampleStream,
      pyRound_102_5, prone_ne_standing, Option.getD, min_def, max_def]
  refine ⟨hb, hm, fun heq => ?_⟩
  have hcontra := congrArg DigitalTwin.SimulationResult.totalMisses heq
  rw [hb, hm] at hcontra
  exact absurd hcontra (by decide)

/-- C6 (amended): the "+0 percent on every parameter" modification leaves the
twin unchanged, so simulating the modified twin FROM THE SAME RNG POSITION as
the baseline yields an identical result (same strategy, stream and start
index); inside `run_what_if_scenario` itself, however, the modified run
continues the process-wide RNG stream after the baseline's draws and its
result may therefore differ from the baseline. -/
theorem c6_zero_percent_same_simulation :
    (∀ t : DigitalTwin.PhysiologicalModel,
      DigitalTwin.modifyTwin t DigitalTwin.zeroPercentAll = t) ∧
    (∀ (t : DigitalTwin.PhysiologicalModel) (race : DigitalTwin.RaceSimulation)
        (stratOpt : Option DigitalTwin.Strategy) (stream : ℕ → ℚ) (rng0 : ℕ),
      DigitalTwin.simulateRace (DigitalTwin.modifyTwin t DigitalTwin.zeroPercentAll)
          race stratOpt stream rng0 =
        DigitalTwin.simulateRace t race stratOpt stream rng0) := by
  have hid : ∀ t : DigitalTwin.PhysiologicalModel,
      DigitalTwin.modifyTwin t DigitalTwin.zeroPercentAll = t := by
    intro t
    cases t
    simp only [DigitalTwin.modifyTwin, DigitalTwin.zeroPercentAll,
      DigitalTwin.applyModification, DigitalTwin.PhysiologicalModel.mk.injEq]
    norm_num
  exact ⟨hid, fun t race stratOpt stream rng0 => by rw [hid t]⟩

/-- C9: Twin B's wind compensation at wind_speed 5 m/s from 90° (3 o'clock,
wind value 1.0): drift = 5 × 1.0 × (50/320) × 0.5 = 0.390625 m, which is
625/72 ≈ 8.68 target diameters — in the ≥ 1.5-diameter band, so the
hit-probability change is −0.30. -/
theorem c9_wind_compensation :
    WindModel.windClock 90 = 3 ∧
    WindModel.cardinalWindValue (WindModel.windClock 90) = some 1 ∧
    WindModel.drift 5 1 = 0.390625 ∧
    WindModel.driftDiameters (WindModel.drift 5 1) = 625 / 72 ∧
    (868 / 100 : ℚ) ≤ 625 / 72 ∧ (625 / 72 : ℚ) < 869 / 100 ∧
    (3 / 2 : ℚ) ≤ WindModel.driftDiameters (WindModel.drift 5 1) ∧
    WindModel.hitProbabilityChange (WindModel.driftDiameters (WindModel.drift 5 1)) =
      -0.30 := by
  have hclock : WindModel.windClock 90 = 3 := by
    have hf : (⌊(90 / 30 : ℚ)⌋ : ℤ) = 3 := by
      rw [Int.floor_eq_iff]
      norm_num
    rw [WindModel.windClock, Biathlon.pyRound, hf]
    norm_num
  refine ⟨hclock, ?_, ?_, ?_, by norm_num, by norm_num, ?_, ?_⟩
  · rw [hclock, WindModel.cardinalWindValue]
    norm_num
  · norm_num [WindModel.drift, WindModel.targetDistance, WindModel.bulletVelocity]
  · norm_num [WindModel.driftDiameters, WindModel.drift, WindModel.targetDistance,
      WindModel.bulletVelocity, WindModel.targetDiameter]
  · norm_num [WindModel.driftDiameters, WindModel.drift, WindModel.targetDistance,
      WindModel.bulletVelocity, WindModel.targetDiameter]
  · norm_num [WindModel.hitProbabilityChange, WindModel.driftDiameters, WindModel.drift,
      WindModel.targetDistance, WindModel.bulletVelocity, WindModel.targetDiameter]

/-- C10: every lap update of `simulate_lap` keeps fatigue non-decreasing,
capped at 1, and keeps lactate at least 1 (given non-negative accumulation
rate and target intensity); consequently, after every lap count k of a
`simulate_race` run started from the initial state (fatigue 0, lactate 2.0),
fatigue lies in [0,1] and lactate is at least 1. -/
theorem c10_simulation_state_invariant :
    (∀ (t : DigitalTwin.PhysiologicalModel) (race : DigitalTwin.RaceSimulation)
        (st : DigitalTwin.RaceState) (strategy : DigitalTwin.Strategy) (lap : ℕ),
      0 ≤ t.fatigueAccumulationRate → 0 ≤ st.fatigue → st.fatigue ≤ 1 →
      0 ≤ (strategy lap).getD 0.8 →
      st.fatigue ≤ (DigitalTwin.simulateLap t race st strategy lap).fatigue ∧
        (DigitalTwin.simulateLap t race st strategy lap).fatigue ≤ 1 ∧
        1 ≤ (DigitalTwin.simulateLap t race st strategy lap).lactate) ∧
    (∀ (t : DigitalTwin.PhysiologicalModel) (race : DigitalTwin.RaceSimulation)
        (strategy : DigitalTwin.Strategy) (stream : ℕ → ℚ) (rng0 k : ℕ),
      0 ≤ t.fatigueAccumulationRate →
      (∀ n, 0 ≤ (strategy n).getD 0.8) →
      0 ≤ (DigitalTwin.raceStates t race strategy stream rng0 k).fatigue ∧
        (DigitalTwin.raceStates t race strategy stream rng0 k).fatigue ≤ 1 ∧
        1 ≤ (DigitalTwin.raceStates t race strategy stream rng0 k).lactate) := by
  constructor
  · intro t race st strategy lap hacc hf0 hf1 htar
    exact DigitalTwin.simulateLap_fatigue_bounds t race st strategy lap hacc hf0 hf1 htar
  · intro t race strategy stream rng0 k hacc hstrat
    induction k with
    | zero =>
      simp only [DigitalTwin.raceStates, DigitalTwin.initState]
      norm_num
    | succ k ih =>
      obtain ⟨ih0, ih1, _⟩ := ih
      simpa only [DigitalTwin.raceStates] using
        DigitalTwin.raceStep_state_bounds t race strategy stream (k + 1)
          (DigitalTwin.raceStates t race strategy stream rng0 k) hacc (hstrat (k + 1)) ih0 ih1

/-- C10 witness: the lap-update bounds at the initial state of the sample
twin, and the race invariant after both laps of the sample sprint. -/
theorem c10_simulation_state_invariant_witness :
    ((DigitalTwin.initState DigitalTwin.sampleTwin DigitalTwin.sampleRace 0).fatigue ≤
        (DigitalTwin.simulateLap DigitalTwin.sampleTwin DigitalTwin.sampleRace
          (DigitalTwin.initState DigitalTwin.sampleTwin DigitalTwin.sampleRace 0)
          (fun _ => some 0.8) 1).fatigue ∧
      (DigitalTwin.simulateLap DigitalTwin.sampleTwin DigitalTwin.sampleRace
        (DigitalTwin.initState DigitalTwin.sampleTwin DigitalTwin.sampleRace 0)
        (fun _ => some 0.8) 1).fatigue ≤ 1 ∧
      1 ≤ (DigitalTwin.simulateLap DigitalTwin.sampleTwin DigitalTwin.sampleRace
        (DigitalTwin.initState DigitalTwin.sampleTwin DigitalTwin.sampleRace 0)
        (fun _ => some 0.8) 1).lactate) ∧
    (0 ≤ (DigitalTwin.raceStates DigitalTwin.sampleTwin DigitalTwin.sampleRace
        (fun _ => some 0.8) DigitalTwin.sampleStream 0 2).fatigue ∧
      (DigitalTwin.raceStates DigitalTwin.sampleTwin DigitalTwin.sampleRace
        (fun _ => some 0.8) DigitalTwin.sampleStream 0 2).fatigue ≤ 1 ∧
      1 ≤ (DigitalTwin.raceStates DigitalTwin.sampleTwin DigitalTwin.sampleRace
        (fun _ => some 0.8) DigitalTwin.sampleStream 0 2).lactate) :=
  ⟨c10_simulation_state_invariant.1 DigitalTwin.sampleTwin DigitalTwin.sampleRace
      (DigitalTwin.initState DigitalTwin.sampleTwin DigitalTwin.sampleRace 0)
      (fun _ => some 0.8) 1
      (by norm_num [DigitalTwin.sampleTwin])
      (by norm_num [DigitalTwin.initState])
      (by norm_num [DigitalTwin.initState])
      (by norm_num [Option.getD]),
   c10_simulation_state_invariant.2 DigitalTwin.sampleTwin DigitalTwin.sampleRace
      (fun _ => some 0.8) DigitalTwin.sampleStream 0 2
      (by norm_num [DigitalTwin.sampleTwin])
      (fun n => by norm_num [Option.getD])⟩

/-- C8 witness: the amended pNN50 statement at RR intervals [0, 100, 130]
(one of the two successive differences exceeds 50 ms). -/
theorem c8_pnn50_witness :
    (FeatureEngineer.extractHrvFeatures (fun q => q) [0, 100, 130]).map
        FeatureEngineer.HrvFeatures.pnn50
      = some ((((FeatureEngineer.successiveDiffs [0, 100, 130]).countP
          (fun x => decide (50 < |x|))) : ℚ) /
            ([0, 100, 130] : List ℚ).length * 100) ∧
    (((FeatureEngineer.successiveDiffs [0, 100, 130]).countP
        (fun x => decide (50 < |x|))) : ℚ) / ([0, 100, 130] : List ℚ).length * 100
      ≤ 100 * ((([0, 100, 130] : List ℚ).length : ℚ) - 1) /
          ([0, 100, 130] : List ℚ).length :=
  c8_pnn50 (fun q => q) [0, 100, 130] (by norm_num)

end Claims
